import Mathlib

/-!
Verification of the style-injection helpers of the Storybook addon tutorial
(`src/helpers.js`, `src/outlineCSS.js`, `src/withGlobals.js` as quoted in
`content/creating-addons/react/en/decorators.md`).

The shared presentation surface is `document.head`: the helpers create
`<style>` elements there, look them up with `document.getElementById`, and
remove them with `removeChild`.  We model the surface as the ordered list of
style elements currently attached to the head.  Each element carries:
  * `eid` — its object identity (the reference returned by
    `document.createElement`); fresh identities are drawn from a counter,
  * `id` — its `id` attribute (set with `style.setAttribute('id', selector)`),
  * `innerHTML` — its style text.
-/

namespace StyleRegistry

structure StyleElement where
  eid : Nat
  id : String
  innerHTML : String
deriving DecidableEq, Repr

structure Surface where
  head : List StyleElement
  nextEid : Nat
deriving DecidableEq, Repr

/-- `document.getElementById(k)`: the first element of the surface whose `id`
attribute is `k`, if any. -/
def getElementById (s : Surface) (k : String) : Option StyleElement :=
  s.head.find? (fun e => e.id == k)

/-- Mutation `existingStyle.innerHTML = css` where `existingStyle` is the first
element with `id` attribute `k`: replace that element's text, leave every other
element untouched. -/
def setInnerHTMLFirst : List StyleElement → String → String → List StyleElement
  | [], _, _ => []
  | e :: es, k, css =>
    if e.id == k then { e with innerHTML := css } :: es
    else e :: setInnerHTMLFirst es k css

/-- `element.parentElement.removeChild(element)` where `element` is the first
element with `id` attribute `k`: drop that element from the surface. -/
def removeFirstById : List StyleElement → String → List StyleElement
  | [], _ => []
  | e :: es, k => if e.id == k then es else e :: removeFirstById es k

/-- `const clearStyle = selector => { const element =
document.getElementById(selector); if (element && element.parentElement) {
element.parentElement.removeChild(element); } }`.  Every element of the
modelled surface is attached to `document.head`, so its `parentElement` is
non-null and the guard reduces to presence of the element. -/
def clearStyle (k : String) (s : Surface) : Surface :=
  match getElementById s k with
  | some _ => { s with head := removeFirstById s.head k }
  | none => s

/-- The argument of `clearStyles` may be a single selector or an array of
selectors (`Array.isArray(selector) ? selector : [selector]`). -/
inductive SelectorArg where
  | single (k : String)
  | keyList (ks : List String)
deriving DecidableEq, Repr

def SelectorArg.toList : SelectorArg → List String
  | .single k => [k]
  | .keyList ks => ks

/-- `export const clearStyles = selector => { const selectors =
Array.isArray(selector) ? selector : [selector]; selectors.forEach(clearStyle); }` -/
def clearStyles (arg : SelectorArg) (s : Surface) : Surface :=
  arg.toList.foldl (fun acc k => clearStyle k acc) s

/-- `export const addOutlineStyles = (selector, css) => { ... }`: if an element
with id `selector` exists, overwrite its text only when it differs from `css`;
otherwise create a fresh `<style>` element with that id and text and append it
to `document.head`. -/
def addOutlineStyles (k css : String) (s : Surface) : Surface :=
  match getElementById s k with
  | some existing =>
    if existing.innerHTML ≠ css then
      { s with head := setInnerHTMLFirst s.head k css }
    else s
  | none =>
    { head := s.head ++ [{ eid := s.nextEid, id := k, innerHTML := css }],
      nextEid := s.nextEid + 1 }

/-- Number of style blocks registered under key `k` (observation used by the
spec's uniqueness properties; not a source function). -/
def countId (s : Surface) (k : String) : Nat :=
  s.head.countP (fun e => e.id == k)

/-- The spec's invariant: at most one style block exists per StyleKey. -/
def AtMostOnePerKey (s : Surface) : Prop :=
  ∀ k, countId s k ≤ 1

/-- The snippets run under `/* eslint-env browser */` and every operation
begins by dereferencing the global `document` (the shared presentation
surface).  When the surface is unavailable that first dereference throws
before any mutation happens; the spec names this condition
`SurfaceUnavailable`. -/
inductive DomError where
  | surfaceUnavailable
deriving DecidableEq, Repr

/-- Modelled from the spec: the `SurfaceUnavailable` failure path is not
written anywhere in the snippets (they assume a browser `document`); the spec
gives that name to the error thrown when the surface is missing.  `none`
models a missing `document`: the operation's first step,
`document.getElementById`, then throws before any mutation, so it fails with
no effect.  On `some` surface the operation is the source `addOutlineStyles`. -/
def addOutlineStylesOp (dom : Option Surface) (k css : String) :
    Except DomError Surface :=
  match dom with
  | none => .error .surfaceUnavailable
  | some s => .ok (addOutlineStyles k css s)

/-- Modelled from the spec: `clearStyles` run against a possibly-unavailable
surface, with the missing-`document` failure named `surfaceUnavailable` as in
the spec; on an available surface it is the source `clearStyles`. -/
def clearStylesOp (dom : Option Surface) (arg : SelectorArg) :
    Except DomError Surface :=
  match dom with
  | none => .error .surfaceUnavailable
  | some s => .ok (clearStyles arg s)

/-- The `(tag, color)` rules of `src/outlineCSS.js`, in source order
(from pesticide v1.3.0). -/
def pesticideRules : List (String × String) := [
  ("body", "#2980b9"), ("article", "#3498db"), ("nav", "#0088c3"), ("aside", "#33a0ce"),
  ("section", "#66b8da"), ("header", "#99cfe7"), ("footer", "#cce7f3"), ("h1", "#162544"),
  ("h2", "#314e6e"), ("h3", "#3e5e85"), ("h4", "#449baf"), ("h5", "#c7d1cb"),
  ("h6", "#4371d0"), ("main", "#2f4f90"), ("address", "#1a2c51"), ("div", "#036cdb"),
  ("p", "#ac050b"), ("hr", "#ff063f"), ("pre", "#850440"), ("blockquote", "#f1b8e7"),
  ("ol", "#ff050c"), ("ul", "#d90416"), ("li", "#d90416"), ("dl", "#fd3427"),
  ("dt", "#ff0043"), ("dd", "#e80174"), ("figure", "#ff00bb"), ("figcaption", "#bf0032"),
  ("table", "#00cc99"), ("caption", "#37ffc4"), ("thead", "#98daca"), ("tbody", "#64a7a0"),
  ("tfoot", "#22746b"), ("tr", "#86c0b2"), ("th", "#a1e7d6"), ("td", "#3f5a54"),
  ("col", "#6c9a8f"), ("colgroup", "#6c9a9d"), ("button", "#da8301"), ("datalist", "#c06000"),
  ("fieldset", "#d95100"), ("form", "#d23600"), ("input", "#fca600"), ("keygen", "#b31e00"),
  ("label", "#ee8900"), ("legend", "#de6d00"), ("meter", "#e8630c"), ("optgroup", "#b33600"),
  ("option", "#ff8a00"), ("output", "#ff9619"), ("progress", "#e57c00"), ("select", "#e26e0f"),
  ("textarea", "#cc5400"), ("details", "#33848f"), ("summary", "#60a1a6"), ("command", "#438da1"),
  ("menu", "#449da6"), ("del", "#bf0000"), ("ins", "#400000"), ("img", "#22746b"),
  ("iframe", "#64a7a0"), ("embed", "#98daca"), ("object", "#00cc99"), ("param", "#37ffc4"),
  ("video", "#6ee866"), ("audio", "#027353"), ("source", "#012426"), ("canvas", "#a2f570"),
  ("track", "#59a600"), ("map", "#7be500"), ("area", "#305900"), ("a", "#ff62ab"),
  ("em", "#800b41"), ("strong", "#ff1583"), ("i", "#803156"), ("b", "#cc1169"),
  ("u", "#ff0430"), ("s", "#f805e3"), ("small", "#d107b2"), ("abbr", "#4a0263"),
  ("q", "#240018"), ("cite", "#64003c"), ("dfn", "#b4005a"), ("sub", "#dba0c8"),
  ("sup", "#cc0256"), ("time", "#d6606d"), ("code", "#e04251"), ("kbd", "#5e001f"),
  ("samp", "#9c0033"), ("var", "#d90047"), ("mark", "#ff0053"), ("bdi", "#bf3668"),
  ("bdo", "#6f1400"), ("ruby", "#ff7b93"), ("rt", "#ff2f54"), ("rp", "#803e49"),
  ("span", "#cc2643"), ("br", "#db687d"), ("wbr", "#db175b")]

/-- One rule of the template literal of `src/outlineCSS.js`:
`${selector} tag {\n      outline: 1px solid color !important;\n    }`. -/
def outlineRule (selector : String) (p : String × String) : String :=
  selector ++ " " ++ p.1 ++ " \x7b\n      outline: 1px solid "
    ++ p.2 ++ " !important;\n    \x7d"

/-- `export default function(selector)` of `src/outlineCSS.js`: the template
literal that scopes every pesticide rule to `selector`. -/
def outlineCSS (selector : String) : String :=
  "\n    " ++ String.intercalate "\n    " (pesticideRules.map (outlineRule selector))

/-- `outlineCSS` as it executes inside a browser world: a JavaScript function
has ambient access to the mutable environment (here: the style surface), so
the embedding takes the world as an argument.  The source body reads nothing
from it — it only interpolates its `selector` parameter. -/
def outlineCSSAt (_world : Surface) (selector : String) : String :=
  outlineCSS selector

/-- The `context` argument of `withGlobals`: the fields the snippet reads. -/
structure StoryContext where
  id : String
  viewMode : String
deriving DecidableEq, Repr

inductive JsError where
  | referenceError (name : String)
deriving DecidableEq, Repr

/-- The effect body of `withGlobals` (second version, the one wired to the
outline helpers) reads the bare identifier `isActive` at
`if (!isActive) ...`.  No binding named `isActive` exists anywhere in the
module — the globals hook binds `outlineActive` — so evaluating it throws
`ReferenceError: isActive is not defined`. -/
def lookupIsActive : Except JsError Bool :=
  .error (.referenceError "isActive")

/-- `const selectorId = isInDocs ? 'addon-outline-docs-${context.id}' :
'addon-outline'` (the StyleKey derived from the context). -/
def effectSelectorId (ctx : StoryContext) : String :=
  if ctx.viewMode == "docs" then "addon-outline-docs-" ++ ctx.id
  else "addon-outline"

/-- `const selector = isInDocs ? '#anchor--${context.id} .docs-story' :
'.sb-show-main'` (the scoping selector fed to `outlineCSS`). -/
def cssScopeSelector (ctx : StoryContext) : String :=
  if ctx.viewMode == "docs" then "#anchor--" ++ ctx.id ++ " .docs-story"
  else ".sb-show-main"

/-- The `useEffect` body of `withGlobals` (`src/withGlobals.js`, outline
version), run once against a surface: compute `selectorId`, then branch on
the undefined identifier `isActive`; were that lookup to succeed, the inactive
branch would call `clearStyles(selectorId)` and the active branch
`addOutlineStyles(selectorId, outlineStyles)`.  The `outlineActive` global the
hook provides is never consulted by the body. -/
def withGlobalsEffect (ctx : StoryContext) (outlineActive : Bool) (s : Surface) :
    Except JsError Surface :=
  let selectorId := effectSelectorId ctx
  let outlineStyles := outlineCSS (cssScopeSelector ctx)
  match lookupIsActive with
  | .error e => .error e
  | .ok isActive =>
    if !isActive then .ok (clearStyles (.single selectorId) s)
    else .ok (addOutlineStyles selectorId outlineStyles s)

/-! ### Helper lemmas -/

theorem clearStyles_single (k : String) (s : Surface) :
    clearStyles (.single k) s = clearStyle k s := rfl

theorem find?_append_right_of_none (l₁ l₂ : List StyleElement)
    (p : StyleElement → Bool) (h : l₁.find? p = none) :
    (l₁ ++ l₂).find? p = l₂.find? p := by
  induction l₁ with
  | nil => rfl
  | cons e es ih =>
    by_cases hp : p e = true
    · rw [List.find?_cons_of_pos _ hp] at h; cases h
    · rw [List.find?_cons_of_neg _ hp] at h
      rw [List.cons_append, List.find?_cons_of_neg _ hp]
      exact ih h

theorem find?_setInnerHTMLFirst_self (l : List StyleElement) (k t : String) :
    (setInnerHTMLFirst l k t).find? (fun e => e.id == k) =
      (l.find? (fun e => e.id == k)).map (fun e => { e with innerHTML := t }) := by
  induction l with
  | nil => rfl
  | cons e es ih =>
    by_cases h : (e.id == k) = true
    · simp only [setInnerHTMLFirst, if_pos h]
      rw [List.find?_cons, List.find?_cons]
      simp [h]
    · simp only [setInnerHTMLFirst, if_neg h]
      rw [List.find?_cons, List.find?_cons]
      simp only [Bool.not_eq_true] at h
      simp [h, ih]

theorem find?_setInnerHTMLFirst_other (l : List StyleElement) (k t k' : String)
    (hkk : k' ≠ k) :
    (setInnerHTMLFirst l k t).find? (fun e => e.id == k') =
      l.find? (fun e => e.id == k') := by
  induction l with
  | nil => rfl
  | cons e es ih =>
    by_cases h : (e.id == k) = true
    · have heq : e.id = k := by simpa using h
      have h' : (e.id == k') = false := by
        simp [heq]
        exact fun x => hkk x.symm
      simp only [setInnerHTMLFirst, if_pos h]
      rw [List.find?_cons, List.find?_cons]
      simp [h']
    · simp only [setInnerHTMLFirst, if_neg h]
      rw [List.find?_cons, List.find?_cons]
      cases h' : (e.id == k') <;> simp [h', ih]

theorem countP_setInnerHTMLFirst (l : List StyleElement) (k t k' : String) :
    (setInnerHTMLFirst l k t).countP (fun e => e.id == k') =
      l.countP (fun e => e.id == k') := by
  induction l with
  | nil => rfl
  | cons e es ih =>
    by_cases h : (e.id == k) = true
    · simp only [setInnerHTMLFirst, if_pos h]
      rw [List.countP_cons, List.countP_cons]
    · simp only [setInnerHTMLFirst, if_neg h]
      rw [List.countP_cons, List.countP_cons, ih]

theorem map_eid_setInnerHTMLFirst (l : List StyleElement) (k t : String) :
    (setInnerHTMLFirst l k t).map StyleElement.eid = l.map StyleElement.eid := by
  induction l with
  | nil => rfl
  | cons e es ih =>
    by_cases h : (e.id == k) = true
    · simp only [setInnerHTMLFirst, if_pos h, List.map_cons]
    · simp only [setInnerHTMLFirst, if_neg h, List.map_cons, ih]

theorem removeFirstById_sublist (l : List StyleElement) (k : String) :
    (removeFirstById l k).Sublist l := by
  induction l with
  | nil => exact List.Sublist.refl _
  | cons e es ih =>
    by_cases h : (e.id == k) = true
    · simp only [removeFirstById, if_pos h]
      exact List.sublist_cons_self e es
    · simp only [removeFirstById, if_neg h]
      exact ih.cons₂ e

theorem find?_removeFirstById_self (l : List StyleElement) (k : String)
    (h : l.countP (fun e => e.id == k) ≤ 1) :
    (removeFirstById l k).find? (fun e => e.id == k) = none := by
  induction l with
  | nil => rfl
  | cons e es ih =>
    rw [List.countP_cons] at h
    by_cases hek : (e.id == k) = true
    · simp only [removeFirstById, if_pos hek]
      rw [if_pos hek] at h
      rw [List.find?_eq_none]
      intro x hx
      have h0 : es.countP (fun e => e.id == k) = 0 := by omega
      simpa using List.countP_eq_zero.mp h0 x hx
    · simp only [removeFirstById, if_neg hek]
      rw [if_neg hek] at h
      simp only [Bool.not_eq_true] at hek
      rw [List.find?_cons, hek]
      exact ih (by omega)

theorem addOutlineStyles_of_found_ne (s : Surface) (k t : String) (e : StyleElement)
    (hf : getElementById s k = some e) (hne : e.innerHTML ≠ t) :
    addOutlineStyles k t s = { s with head := setInnerHTMLFirst s.head k t } := by
  unfold addOutlineStyles
  rw [hf]
  simp [hne]

theorem addOutlineStyles_of_found_eq (s : Surface) (k t : String) (e : StyleElement)
    (hf : getElementById s k = some e) (heq : e.innerHTML = t) :
    addOutlineStyles k t s = s := by
  unfold addOutlineStyles
  rw [hf]
  simp [heq]

theorem addOutlineStyles_of_absent (s : Surface) (k t : String)
    (hf : getElementById s k = none) :
    addOutlineStyles k t s =
      { head := s.head ++ [{ eid := s.nextEid, id := k, innerHTML := t }],
        nextEid := s.nextEid + 1 } := by
  unfold addOutlineStyles
  rw [hf]

theorem clearStyle_of_found (s : Surface) (k : String) (e : StyleElement)
    (hf : getElementById s k = some e) :
    clearStyle k s = { s with head := removeFirstById s.head k } := by
  unfold clearStyle
  rw [hf]

theorem clearStyle_of_absent (s : Surface) (k : String)
    (hf : getElementById s k = none) :
    clearStyle k s = s := by
  unfold clearStyle
  rw [hf]

theorem getElementById_eq_none_iff (s : Surface) (k : String) :
    getElementById s k = none ↔ countId s k = 0 := by
  unfold getElementById countId
  rw [List.find?_eq_none, List.countP_eq_zero]

theorem getElementById_addOutlineStyles_self (s : Surface) (k t : String) :
    ∃ e, getElementById (addOutlineStyles k t s) k = some e ∧ e.innerHTML = t := by
  cases hf : getElementById s k with
  | none =>
    rw [addOutlineStyles_of_absent s k t hf]
    refine ⟨{ eid := s.nextEid, id := k, innerHTML := t }, ?_, rfl⟩
    unfold getElementById at hf ⊢
    rw [find?_append_right_of_none _ _ _ hf]
    simp [List.find?_cons]
  | some e =>
    by_cases he : e.innerHTML = t
    · rw [addOutlineStyles_of_found_eq s k t e hf he]
      exact ⟨e, hf, he⟩
    · rw [addOutlineStyles_of_found_ne s k t e hf he]
      refine ⟨{ e with innerHTML := t }, ?_, rfl⟩
      unfold getElementById at hf ⊢
      rw [find?_setInnerHTMLFirst_self, hf]
      rfl

theorem countId_addOutlineStyles_self (s : Surface) (k t : String)
    (h : countId s k ≤ 1) :
    countId (addOutlineStyles k t s) k = 1 := by
  cases hf : getElementById s k with
  | none =>
    rw [addOutlineStyles_of_absent s k t hf]
    have h0 : countId s k = 0 := (getElementById_eq_none_iff s k).mp hf
    unfold countId at h0 ⊢
    rw [List.countP_append, h0]
    simp [List.countP_cons]
  | some e =>
    have hf' : s.head.find? (fun e => e.id == k) = some e := hf
    have hp : (e.id == k) = true := by
      have hq := List.find?_some hf'
      simpa using hq
    have hpos : 0 < countId s k := by
      unfold countId
      rw [List.countP_pos_iff]
      exact ⟨e, List.mem_of_find?_eq_some hf', hp⟩
    by_cases he : e.innerHTML = t
    · rw [addOutlineStyles_of_found_eq s k t e hf he]
      omega
    · rw [addOutlineStyles_of_found_ne s k t e hf he]
      unfold countId at hpos h ⊢
      rw [countP_setInnerHTMLFirst]
      omega

theorem countId_addOutlineStyles_other (s : Surface) (k t k' : String)
    (hkk : k' ≠ k) :
    countId (addOutlineStyles k t s) k' = countId s k' := by
  cases hf : getElementById s k with
  | none =>
    rw [addOutlineStyles_of_absent s k t hf]
    unfold countId
    rw [List.countP_append]
    have hkf : (k == k') = false := by
      simp
      exact fun x => hkk x.symm
    simp [List.countP_cons, hkf]
  | some e =>
    by_cases he : e.innerHTML = t
    · rw [addOutlineStyles_of_found_eq s k t e hf he]
    · rw [addOutlineStyles_of_found_ne s k t e hf he]
      unfold countId
      rw [countP_setInnerHTMLFirst]

theorem countId_clearStyle_le (s : Surface) (k k' : String) :
    countId (clearStyle k s) k' ≤ countId s k' := by
  cases hf : getElementById s k with
  | none => rw [clearStyle_of_absent s k hf]
  | some e =>
    rw [clearStyle_of_found s k e hf]
    exact (removeFirstById_sublist s.head k).countP_le _

theorem getElementById_clearStyle_self (s : Surface) (k : String)
    (h : countId s k ≤ 1) :
    getElementById (clearStyle k s) k = none := by
  cases hf : getElementById s k with
  | none => rw [clearStyle_of_absent s k hf]; exact hf
  | some e =>
    rw [clearStyle_of_found s k e hf]
    exact find?_removeFirstById_self s.head k h

theorem getElementById_clearStyle_none (s : Surface) (k k' : String)
    (h : getElementById s k' = none) :
    getElementById (clearStyle k s) k' = none := by
  rw [getElementById_eq_none_iff] at h ⊢
  have := countId_clearStyle_le s k k'
  omega

theorem atMostOne_addOutlineStyles (s : Surface) (k t : String)
    (h : AtMostOnePerKey s) : AtMostOnePerKey (addOutlineStyles k t s) := by
  intro k'
  by_cases hkk : k' = k
  · subst hkk
    rw [countId_addOutlineStyles_self s k' t (h k')]
  · rw [countId_addOutlineStyles_other s k t k' hkk]
    exact h k'

theorem atMostOne_clearStyle (s : Surface) (k : String)
    (h : AtMostOnePerKey s) : AtMostOnePerKey (clearStyle k s) :=
  fun k' => le_trans (countId_clearStyle_le s k k') (h k')

theorem atMostOne_empty : AtMostOnePerKey ⟨[], 0⟩ := by
  intro k
  unfold countId
  simp

theorem getElementById_foldl_clear_none (ks : List String) (s : Surface) (k : String)
    (h : getElementById s k = none) :
    getElementById (ks.foldl (fun acc k2 => clearStyle k2 acc) s) k = none := by
  induction ks generalizing s with
  | nil => exact h
  | cons k0 rest ih =>
    rw [List.foldl_cons]
    exact ih _ (getElementById_clearStyle_none s k0 k h)

theorem getElementById_foldl_clear_mem (ks : List String) (s : Surface)
    (h : AtMostOnePerKey s) :
    ∀ k ∈ ks, getElementById (ks.foldl (fun acc k2 => clearStyle k2 acc) s) k = none := by
  induction ks generalizing s with
  | nil =>
    intro k hk
    cases hk
  | cons k0 rest ih =>
    intro k hk
    rw [List.foldl_cons]
    rcases List.mem_cons.mp hk with hk0 | hkr
    · subst hk0
      exact getElementById_foldl_clear_none rest _ k
        (getElementById_clearStyle_self s k (h k))
    · exact ih _ (atMostOne_clearStyle s k0 h) k hkr

/-! ### Claim theorems -/

/-- C1: for every key `k` and style texts `t1`, `t2`, calling
`addOutlineStyles(k, t1)` and then `addOutlineStyles(k, t2)` on the same
surface leaves exactly one style block registered under `k`, and its content
is `t2`; no duplicate block for `k` is created.  The hypothesis is the spec's
standing invariant that the starting surface holds at most one block for `k`. -/
theorem apply_apply_single_block (s : Surface) (k t1 t2 : String)
    (h : countId s k ≤ 1) :
    countId (addOutlineStyles k t2 (addOutlineStyles k t1 s)) k = 1 ∧
    (getElementById (addOutlineStyles k t2 (addOutlineStyles k t1 s)) k).map
      StyleElement.innerHTML = some t2 := by
  have h1 : countId (addOutlineStyles k t1 s) k = 1 :=
    countId_addOutlineStyles_self s k t1 h
  refine ⟨countId_addOutlineStyles_self _ k t2 (le_of_eq h1), ?_⟩
  obtain ⟨e, hf, he⟩ := getElementById_addOutlineStyles_self (addOutlineStyles k t1 s) k t2
  rw [hf]
  simp [he]

theorem apply_apply_single_block_witness :
    countId (addOutlineStyles "addon-outline" "body\x7boutline:1px solid blue\x7d"
      (addOutlineStyles "addon-outline" "body\x7boutline:1px solid red\x7d"
        ⟨[], 0⟩)) "addon-outline" = 1 ∧
    (getElementById (addOutlineStyles "addon-outline" "body\x7boutline:1px solid blue\x7d"
      (addOutlineStyles "addon-outline" "body\x7boutline:1px solid red\x7d"
        ⟨[], 0⟩)) "addon-outline").map StyleElement.innerHTML =
      some "body\x7boutline:1px solid blue\x7d" :=
  apply_apply_single_block ⟨[], 0⟩ "addon-outline"
    "body\x7boutline:1px solid red\x7d" "body\x7boutline:1px solid blue\x7d"
    (by decide)

/-- C2: for every key `k` and text `t`, `addOutlineStyles(k, t)` followed by
`clearStyles(k)` leaves no style block registered under `k` (hypothesis: the
spec's invariant that the starting surface holds at most one block for `k`). -/
theorem apply_then_clear_removes (s : Surface) (k t : String)
    (h : countId s k ≤ 1) :
    getElementById (clearStyles (.single k) (addOutlineStyles k t s)) k = none := by
  rw [clearStyles_single]
  exact getElementById_clearStyle_self _ k
    (le_of_eq (countId_addOutlineStyles_self s k t h))

theorem apply_then_clear_removes_witness :
    getElementById (clearStyles (.single "addon-outline")
      (addOutlineStyles "addon-outline" "body\x7boutline:1px solid red\x7d"
        ⟨[], 0⟩)) "addon-outline" = none :=
  apply_then_clear_removes ⟨[], 0⟩ "addon-outline"
    "body\x7boutline:1px solid red\x7d" (by decide)

/-- C3: `addOutlineStyles(k, t)` repeated with the identical `t` is a no-op:
the whole surface — element identities (`eid`) included — is unchanged by the
second call; and `clearStyle(k)` repeated has the same effect on the surface
as calling it once (hypothesis: at most one block for `k` at the start). -/
theorem apply_clear_idempotent (s : Surface) (k t : String)
    (h : countId s k ≤ 1) :
    addOutlineStyles k t (addOutlineStyles k t s) = addOutlineStyles k t s ∧
    clearStyle k (clearStyle k s) = clearStyle k s := by
  constructor
  · obtain ⟨e, hf, he⟩ := getElementById_addOutlineStyles_self s k t
    exact addOutlineStyles_of_found_eq _ k t e hf he
  · exact clearStyle_of_absent _ k (getElementById_clearStyle_self s k h)

theorem apply_clear_idempotent_witness :
    addOutlineStyles "addon-outline" "body\x7boutline:1px solid red\x7d"
        (addOutlineStyles "addon-outline" "body\x7boutline:1px solid red\x7d"
          ⟨[], 0⟩) =
      addOutlineStyles "addon-outline" "body\x7boutline:1px solid red\x7d" ⟨[], 0⟩ ∧
    clearStyle "addon-outline" (clearStyle "addon-outline" ⟨[], 0⟩) =
      clearStyle "addon-outline" ⟨[], 0⟩ :=
  apply_clear_idempotent ⟨[], 0⟩ "addon-outline"
    "body\x7boutline:1px solid red\x7d" (by decide)

/-- C4: `clearStyles(k)` on a key with no registered block is a no-op: it
does not fail and returns the surface unchanged. -/
theorem clear_absent_noop (s : Surface) (k : String)
    (h : getElementById s k = none) :
    clearStylesOp (some s) (.single k) = .ok s := by
  show Except.ok (clearStyles (.single k) s) = Except.ok s
  rw [clearStyles_single, clearStyle_of_absent s k h]

theorem clear_absent_noop_witness :
    clearStylesOp (some ⟨[⟨7, "other-key", "x"⟩], 8⟩) (.single "addon-outline") =
      .ok ⟨[⟨7, "other-key", "x"⟩], 8⟩ :=
  clear_absent_noop ⟨[⟨7, "other-key", "x"⟩], 8⟩ "addon-outline" (by decide)

/-- C5: the invariant "at most one style block per key" is preserved by every
`addOutlineStyles` and every `clearStyle` call from any surface satisfying it. -/
theorem uniqueness_invariant_preserved (s : Surface) (k t : String)
    (h : AtMostOnePerKey s) :
    AtMostOnePerKey (addOutlineStyles k t s) ∧ AtMostOnePerKey (clearStyle k s) :=
  ⟨atMostOne_addOutlineStyles s k t h, atMostOne_clearStyle s k h⟩

theorem uniqueness_invariant_preserved_witness :
    AtMostOnePerKey (addOutlineStyles "addon-outline"
      "body\x7boutline:1px solid red\x7d" ⟨[], 0⟩) ∧
    AtMostOnePerKey (clearStyle "addon-outline" ⟨[], 0⟩) :=
  uniqueness_invariant_preserved ⟨[], 0⟩ "addon-outline"
    "body\x7boutline:1px solid red\x7d" atMostOne_empty

/-- C6: when a block for `k` with content `t1` exists and `t2 ≠ t1`,
`addOutlineStyles(k, t2)` replaces the content in place: the same element
(same `eid`) remains registered under `k` with content `t2`; no element is
created, removed or reinserted (the surface's identity sequence and fresh-id
counter are unchanged); and lookups under every other key are unchanged. -/
theorem apply_replaces_in_place (s : Surface) (k t1 t2 : String) (e : StyleElement)
    (hf : getElementById s k = some e) (h1 : e.innerHTML = t1) (hne : t1 ≠ t2) :
    getElementById (addOutlineStyles k t2 s) k = some { e with innerHTML := t2 } ∧
    (addOutlineStyles k t2 s).nextEid = s.nextEid ∧
    (addOutlineStyles k t2 s).head.map StyleElement.eid = s.head.map StyleElement.eid ∧
    ∀ k', k' ≠ k → getElementById (addOutlineStyles k t2 s) k' = getElementById s k' := by
  have hne2 : e.innerHTML ≠ t2 := h1 ▸ hne
  rw [addOutlineStyles_of_found_ne s k t2 e hf hne2]
  refine ⟨?_, rfl, map_eid_setInnerHTMLFirst s.head k t2, ?_⟩
  · unfold getElementById at hf ⊢
    rw [find?_setInnerHTMLFirst_self, hf]
    rfl
  · intro k' hk'
    unfold getElementById
    exact find?_setInnerHTMLFirst_other s.head k t2 k' hk'

theorem apply_replaces_in_place_witness :
    getElementById (addOutlineStyles "addon-outline" "blue-rule"
        ⟨[⟨0, "addon-outline", "red-rule"⟩, ⟨1, "other-key", "x"⟩], 2⟩)
      "addon-outline" = some ⟨0, "addon-outline", "blue-rule"⟩ ∧
    (addOutlineStyles "addon-outline" "blue-rule"
        ⟨[⟨0, "addon-outline", "red-rule"⟩, ⟨1, "other-key", "x"⟩], 2⟩).nextEid = 2 ∧
    (addOutlineStyles "addon-outline" "blue-rule"
        ⟨[⟨0, "addon-outline", "red-rule"⟩, ⟨1, "other-key", "x"⟩], 2⟩).head.map
      StyleElement.eid =
      ([⟨0, "addon-outline", "red-rule"⟩, ⟨1, "other-key", "x"⟩] :
        List StyleElement).map StyleElement.eid ∧
    ∀ k', k' ≠ "addon-outline" →
      getElementById (addOutlineStyles "addon-outline" "blue-rule"
          ⟨[⟨0, "addon-outline", "red-rule"⟩, ⟨1, "other-key", "x"⟩], 2⟩) k' =
        getElementById ⟨[⟨0, "addon-outline", "red-rule"⟩, ⟨1, "other-key", "x"⟩], 2⟩ k' :=
  apply_replaces_in_place ⟨[⟨0, "addon-outline", "red-rule"⟩, ⟨1, "other-key", "x"⟩], 2⟩
    "addon-outline" "red-rule" "blue-rule" ⟨0, "addon-outline", "red-rule"⟩
    (by decide) rfl (by decide)

/-- C7: against an available surface both operations always succeed (they are
total and return the updated surface); against an unavailable surface each
operation fails with `surfaceUnavailable`, the error is returned to the caller,
and no surface is produced or mutated. -/
theorem ops_total_or_surface_unavailable :
    (∀ (s : Surface) (k css : String),
        addOutlineStylesOp (some s) k css = .ok (addOutlineStyles k css s)) ∧
    (∀ (s : Surface) (arg : SelectorArg),
        clearStylesOp (some s) arg = .ok (clearStyles arg s)) ∧
    (∀ (k css : String), addOutlineStylesOp none k css = .error .surfaceUnavailable) ∧
    (∀ (arg : SelectorArg), clearStylesOp none arg = .error .surfaceUnavailable) :=
  ⟨fun _ _ _ => rfl, fun _ _ => rfl, fun _ _ => rfl, fun _ => rfl⟩

/-- C8 (bug in the snippet): the effect body of `withGlobals` tests the
undefined identifier `isActive` instead of the `outlineActive` global it
reads from `useGlobals`, so every run of the effect throws a
`ReferenceError` — in particular with the toggle active (`outlineActive =
true`) on an empty surface no style block is ever created, contradicting the
claimed block-present-iff-toggle-active lifecycle. -/
theorem withGlobalsEffect_always_reference_error :
    withGlobalsEffect ⟨"example-button--primary", "story"⟩ true ⟨[], 0⟩ =
      .error (.referenceError "isActive") ∧
    ∀ (ctx : StoryContext) (active : Bool) (s : Surface),
      withGlobalsEffect ctx active s = .error (.referenceError "isActive") :=
  ⟨rfl, fun _ _ _ => rfl⟩

/-- C9: the style-text generator is a pure function of its scoping-selector
argument: its result does not depend on the ambient world it runs in, so any
two invocations on the same selector return the same style text. -/
theorem outlineCSS_deterministic (w1 w2 : Surface) (sel : String) :
    outlineCSSAt w1 sel = outlineCSSAt w2 sel := rfl

/-- C10: `clearStyles` accepts a single key or a list of keys: a single key
behaves exactly as the one-element list, a list is processed by clearing its
head first and then the remaining keys in order, and afterwards no block
remains for any key of the list (hypothesis: the spec's at-most-one-block-per-
key invariant holds at the start). -/
theorem clearStyles_list_decomposes (s : Surface) (k : String) (ks : List String)
    (h : AtMostOnePerKey s) :
    clearStyles (.single k) s = clearStyles (.keyList [k]) s ∧
    clearStyles (.keyList (k :: ks)) s = clearStyles (.keyList ks) (clearStyle k s) ∧
    ∀ k2 ∈ k :: ks, getElementById (clearStyles (.keyList (k :: ks)) s) k2 = none := by
  refine ⟨rfl, rfl, ?_⟩
  intro k2 hk2
  exact getElementById_foldl_clear_mem (k :: ks) s h k2 hk2

theorem clearStyles_list_decomposes_witness :
    clearStyles (.single "addon-outline") ⟨[], 0⟩ =
      clearStyles (.keyList ["addon-outline"]) ⟨[], 0⟩ ∧
    clearStyles (.keyList ["addon-outline", "addon-outline-docs-a"]) ⟨[], 0⟩ =
      clearStyles (.keyList ["addon-outline-docs-a"])
        (clearStyle "addon-outline" ⟨[], 0⟩) ∧
    ∀ k2 ∈ ["addon-outline", "addon-outline-docs-a"],
      getElementById
        (clearStyles (.keyList ["addon-outline", "addon-outline-docs-a"]) ⟨[], 0⟩)
        k2 = none :=
  clearStyles_list_decomposes ⟨[], 0⟩ "addon-outline" ["addon-outline-docs-a"]
    atMostOne_empty

end StyleRegistry
